import Mathlib

/-!
Shallow embedding of the string analyzer service (src/app/main.py).

The embedded core consists of:
  - `compute_properties` (the PropertyEngine),
  - `parse_nl_query` (the QueryTranslator),
  - the per-row filter check of `list_strings` (the FilterEvaluator),
  - the structured-filter conflict pre-check of `list_strings`.

Python strings are modelled as `List Char`.  The helpers `pyLowerChar`,
`pyIsSpace` and `Char.isDigit` model the Python `str.lower`, whitespace and
`\d` behaviour on the ASCII range (the queries and patterns of the source are
all ASCII).  The `sha256_hash` field of the property record is a cryptographic
digest and is left out of the embedding: no claim is about it.
-/

namespace StringAnalyzer

/-- ASCII model of Python `str.lower`: map A-Z to a-z, keep other chars. -/
def pyLowerChar (c : Char) : Char :=
  if 'A' ≤ c ∧ c ≤ 'Z' then Char.ofNat (c.toNat + 32) else c

/-- `q.lower()` character by character. -/
def pyLower (s : List Char) : List Char := s.map pyLowerChar

/-- ASCII whitespace as used by Python `str.strip` and `str.split`. -/
def pyIsSpace (c : Char) : Bool :=
  c = ' ' || c = '\t' || c = '\n' || c = '\r' || c = '\x0b' || c = '\x0c'

/-- `v.strip()`: drop leading and trailing whitespace. -/
def pyStrip (l : List Char) : List Char :=
  ((l.dropWhile pyIsSpace).reverse.dropWhile pyIsSpace).reverse

/-- Worker for `v.split()`: accumulate the current token (reversed) and cut at
whitespace, dropping empty tokens. -/
def splitWsAux : List Char → List Char → List (List Char)
  | [], acc => if acc.isEmpty then [] else [acc.reverse]
  | c :: rest, acc =>
      if pyIsSpace c then
        if acc.isEmpty then splitWsAux rest [] else acc.reverse :: splitWsAux rest []
      else splitWsAux rest (c :: acc)

/-- `v.split()`: split on runs of whitespace, no empty tokens. -/
def pySplit (l : List Char) : List (List Char) := splitWsAux l []

/-- The `freq[ch] = freq.get(ch, 0) + 1` loop of `compute_properties`; the
dictionary is modelled as a total function with default 0, which is how the
evaluator reads it back (`char_freq.get(c, 0)`). -/
def buildFreq : List Char → (Char → Nat) → (Char → Nat)
  | [], f => f
  | ch :: rest, f => buildFreq rest (fun c => if c = ch then f c + 1 else f c)

/-- The property record computed by `compute_properties` (without the
`sha256_hash` digest, which no claim mentions). -/
structure PropRecord where
  length : Nat
  is_palindrome : Bool
  unique_characters : Nat
  word_count : Nat
  character_frequency : Char → Nat

/-- `compute_properties` of src/app/main.py, lines 55-82. -/
def compute_properties (value : String) : PropRecord :=
  let v := value.toList
  { length := v.length,
    is_palindrome := pyLower v == (pyLower v).reverse,
    unique_characters := v.dedup.length,
    word_count := if pyStrip v == ([] : List Char) then 0 else (pySplit v).length,
    character_frequency := buildFreq v (fun _ => 0) }

/-- String literal to char list, for the fixed patterns of the translator. -/
def strL (s : String) : List Char := s.toList

/-- Substring test, modelling `re.search` of a literal pattern and the Python
`in` operator. -/
def containsSub (pat : List Char) : List Char → Bool
  | [] => pat.isPrefixOf ([] : List Char)
  | c :: rest => pat.isPrefixOf (c :: rest) || containsSub pat rest

/-- Leftmost-match regex search: try the position matcher on every suffix from
the left and return its first success. -/
def scanFirst (f : List Char → Option α) : List Char → Option α
  | [] => f []
  | c :: rest =>
      match f (c :: rest) with
      | some a => some a
      | none => scanFirst f rest

/-- Value of a run of decimal digits, modelling `int(m.group(1))`. -/
def digitsVal (ds : List Char) : Nat :=
  ds.foldl (fun acc c => acc * 10 + (c.toNat - '0'.toNat)) 0

/-- One position of the regex `longer than (\d+)`: the literal
`"longer than "` followed by at least one digit; the capture is the maximal
digit run (greedy `\d+`). -/
def matchLongerAt (l : List Char) : Option Nat :=
  if (strL "longer than ").isPrefixOf l then
    let r := l.drop 12
    match r with
    | [] => none
    | c :: _ => if c.isDigit then some (digitsVal (r.takeWhile Char.isDigit)) else none
  else none

/-- `re.search(r"longer than (\d+)", q_lower)`, returning the captured number. -/
def searchLongerThan (l : List Char) : Option Nat := scanFirst matchLongerAt l

/-- One position of the regex `contain(?:ing|s)? (?:the )?letter ([a-z])`.
The three bridges `"ing "`, `"s "`, `" "` start with distinct characters, and
`"the "` and `"letter "` start with distinct characters, so the regex engine
backtracking is deterministic and the matcher needs no search within a
position. -/
def matchLetterAt (l : List Char) : Option Char :=
  if (strL "contain").isPrefixOf l then
    let r := l.drop 7
    let r2 : Option (List Char) :=
      if (strL "ing ").isPrefixOf r then some (r.drop 4)
      else if (strL "s ").isPrefixOf r then some (r.drop 2)
      else if (strL " ").isPrefixOf r then some (r.drop 1)
      else none
    match r2 with
    | none => none
    | some r2 =>
      let r3 := if (strL "the ").isPrefixOf r2 then r2.drop 4 else r2
      if (strL "letter ").isPrefixOf r3 then
        match r3.drop 7 with
        | [] => none
        | c :: _ => if 'a' ≤ c ∧ c ≤ 'z' then some c else none
      else none
  else none

/-- `re.search(r"contain(?:ing|s)? (?:the )?letter ([a-z])", q_lower)`,
returning the captured letter. -/
def searchLetter (l : List Char) : Option Char := scanFirst matchLetterAt l

/-- Whether `re.search(r"(single|one) word", q_lower)` matches: since only
existence matters, this is a pair of substring tests. -/
def singleOneWord (l : List Char) : Bool :=
  containsSub (strL "single word") l || containsSub (strL "one word") l

/-- The transient filter set: five optional fields, as in the `parsed`
dictionary of `parse_nl_query` and the query parameters of `list_strings`. -/
structure FilterSet where
  is_palindrome : Option Bool
  min_length : Option Nat
  max_length : Option Nat
  word_count : Option Nat
  contains_character : Option Char
deriving DecidableEq

/-- The filter with no field present (the empty `parsed` dictionary). -/
def emptyFilter : FilterSet :=
  { is_palindrome := none, min_length := none, max_length := none,
    word_count := none, contains_character := none }

/-- The two core error kinds: the `ValueError` messages of `parse_nl_query`
("unable to parse" and "conflicting filters") and the HTTP 400
"min_length cannot be greater than max_length" of `list_strings`, which the
spec names `ParseError` and `ConflictError`. -/
inductive SvcError where
  | parseError : SvcError
  | conflictError : SvcError
deriving DecidableEq

/-- The five pattern rules of `parse_nl_query` (lines 90-109), applied in
source order to the lower-cased query; later rules overwrite earlier ones on
the same field. -/
def nlFilters (ql : List Char) : FilterSet :=
  let p0 := emptyFilter
  let p1 := if singleOneWord ql then { p0 with word_count := some 1 } else p0
  let p2 :=
    match searchLongerThan ql with
    | some n => { p1 with min_length := some (n + 1) }
    | none => p1
  let p3 := if containsSub (strL "palindrom") ql then { p2 with is_palindrome := some true } else p2
  let p4 :=
    match searchLetter ql with
    | some c => { p3 with contains_character := some c }
    | none => p3
  if containsSub (strL "first vowel") ql then { p4 with contains_character := some 'a' } else p4

/-- The `min_length`/`max_length` contradiction test shared by
`parse_nl_query` (lines 112-114) and `list_strings` (lines 208-210):
true when both fields are present and min exceeds max. -/
def conflictCheck (f : FilterSet) : Bool :=
  match f.min_length, f.max_length with
  | some mn, some mx => decide (mx < mn)
  | _, _ => false

/-- `if not parsed` of line 116: the dictionary is empty iff no rule set any
field. -/
def isEmptyFilter (f : FilterSet) : Bool :=
  f.is_palindrome.isNone && f.min_length.isNone && f.max_length.isNone &&
    f.word_count.isNone && f.contains_character.isNone

/-- `parse_nl_query` of src/app/main.py, lines 84-119: run the rules, then the
conflict check, then the empty check. -/
def parse_nl_query (q : String) : Except SvcError FilterSet :=
  let parsed := nlFilters (pyLower q.toList)
  if conflictCheck parsed then Except.error SvcError.conflictError
  else if isEmptyFilter parsed then Except.error SvcError.parseError
  else Except.ok parsed

/-- The per-row check of `list_strings` (lines 216-232): start from
`ok = True` and clear it whenever a present filter field fails its
predicate. -/
def rowMatches (props : PropRecord) (f : FilterSet) : Bool :=
  let ok := true
  let ok :=
    match f.is_palindrome with
    | some b => if props.is_palindrome != b then false else ok
    | none => ok
  let ok :=
    match f.min_length with
    | some n => if props.length < n then false else ok
    | none => ok
  let ok :=
    match f.max_length with
    | some n => if props.length > n then false else ok
    | none => ok
  let ok :=
    match f.word_count with
    | some n => if props.word_count != n then false else ok
    | none => ok
  let ok :=
    match f.contains_character with
    | some c => if props.character_frequency c == 0 then false else ok
    | none => ok
  ok

/-- `list_strings` (lines 198-254) restricted to its core: reject a
contradictory filter up front (HTTP 400, the spec calls it `ConflictError`),
otherwise keep the rows passing `rowMatches`. -/
def list_strings (f : FilterSet) (rows : List PropRecord) : Except SvcError (List PropRecord) :=
  if conflictCheck f then Except.error SvcError.conflictError
  else Except.ok (rows.filter (fun r => rowMatches r f))

/-- Spec-side token count: the number of maximal runs of non-whitespace
characters; the flag records whether the scan is inside a run. -/
def countRuns : List Char → Bool → Nat
  | [], _ => 0
  | c :: rest, inTok =>
      if pyIsSpace c then countRuns rest false
      else (if inTok then 0 else 1) + countRuns rest true


theorem nlFilters_max_length (ql : List Char) : (nlFilters ql).max_length = none := by
  unfold nlFilters
  dsimp only
  split <;> split <;> split <;> split <;> split <;> simp_all [emptyFilter]

theorem nlFilters_word_count (ql : List Char) :
    (nlFilters ql).word_count = if singleOneWord ql then some 1 else none := by
  unfold nlFilters
  dsimp only
  split <;> split <;> split <;> split <;> split <;> simp_all [emptyFilter]

theorem nlFilters_min_length (ql : List Char) :
    (nlFilters ql).min_length = (searchLongerThan ql).map (fun n => n + 1) := by
  unfold nlFilters
  dsimp only
  split <;> split <;> split <;> split <;> split <;> simp_all [emptyFilter]

theorem nlFilters_is_palindrome (ql : List Char) :
    (nlFilters ql).is_palindrome =
      if containsSub (strL "palindrom") ql then some true else none := by
  unfold nlFilters
  dsimp only
  split <;> split <;> split <;> split <;> split <;> simp_all [emptyFilter]

theorem nlFilters_contains_character (ql : List Char) :
    (nlFilters ql).contains_character =
      if containsSub (strL "first vowel") ql then some 'a' else searchLetter ql := by
  unfold nlFilters
  dsimp only
  split <;> split <;> split <;> split <;> split <;> simp_all [emptyFilter]


theorem conflictCheck_eq_false_of_max_none (f : FilterSet) (h : f.max_length = none) :
    conflictCheck f = false := by
  cases hm : f.min_length <;> simp [conflictCheck, h, hm]

/-- The translator never takes its conflict branch: the rules leave
`max_length` unset, so after the checks it returns the accumulated filter set
unless that set is empty. -/
theorem parse_nl_query_eq (q : String) :
    parse_nl_query q =
      if isEmptyFilter (nlFilters (pyLower q.toList)) then Except.error SvcError.parseError
      else Except.ok (nlFilters (pyLower q.toList)) := by
  unfold parse_nl_query
  dsimp only
  rw [conflictCheck_eq_false_of_max_none _ (nlFilters_max_length _)]
  simp

theorem isEmptyFilter_nlFilters (ql : List Char) :
    isEmptyFilter (nlFilters ql) = true ↔
      (singleOneWord ql = false ∧ searchLongerThan ql = none ∧
       containsSub (strL "palindrom") ql = false ∧ searchLetter ql = none ∧
       containsSub (strL "first vowel") ql = false) := by
  rw [isEmptyFilter, nlFilters_max_length, nlFilters_word_count, nlFilters_min_length,
    nlFilters_is_palindrome, nlFilters_contains_character]
  cases h1 : singleOneWord ql <;> cases h2 : searchLongerThan ql <;>
    cases h3 : containsSub (strL "palindrom") ql <;> cases h4 : searchLetter ql <;>
    cases h5 : containsSub (strL "first vowel") ql <;> simp

/-- C10: the translator never fails with `ConflictError`: no rule sets
`max_length`, so the conflict branch is unreachable and the only possible
outcomes are the accumulated filter set or `ParseError`. -/
theorem C10_translator_never_conflicts (t : String) :
    parse_nl_query t ≠ Except.error SvcError.conflictError ∧
    (nlFilters (pyLower t.toList)).max_length = none ∧
    (parse_nl_query t = Except.ok (nlFilters (pyLower t.toList)) ∨
     parse_nl_query t = Except.error SvcError.parseError) := by
  refine ⟨?_, nlFilters_max_length _, ?_⟩ <;> rw [parse_nl_query_eq] <;> split <;> simp

/-- C7: the translator fails with `ParseError` exactly when none of the five
rules matched the lower-cased text; otherwise it returns the accumulated
filter set; in particular it fails with `ParseError` on "xyz123". -/
theorem C7_parse_error_iff_no_rule (t : String) :
    (parse_nl_query t = Except.error SvcError.parseError ↔
      (singleOneWord (pyLower t.toList) = false ∧
       searchLongerThan (pyLower t.toList) = none ∧
       containsSub (strL "palindrom") (pyLower t.toList) = false ∧
       searchLetter (pyLower t.toList) = none ∧
       containsSub (strL "first vowel") (pyLower t.toList) = false)) ∧
    (parse_nl_query t = Except.error SvcError.parseError ∨
     parse_nl_query t = Except.ok (nlFilters (pyLower t.toList))) ∧
    parse_nl_query "xyz123" = Except.error SvcError.parseError := by
  refine ⟨?_, ?_, by rw [parse_nl_query_eq]; rfl⟩ <;> rw [parse_nl_query_eq]
  · rw [← isEmptyFilter_nlFilters]
    split <;> simp_all
  · split <;> simp

/-- C2: rule 5 ("first vowel") is evaluated after rule 4 (the "letter X"
pattern) and overwrites its result: whenever the lower-cased text contains
"first vowel" — in particular when the letter pattern also matched — the
accumulated filter and the returned filter set carry
`contains_character = some a`. -/
theorem C2_first_vowel_wins (t : String)
    (h : containsSub (strL "first vowel") (pyLower t.toList) = true) :
    (nlFilters (pyLower t.toList)).contains_character = some 'a' ∧
    ∃ p, parse_nl_query t = Except.ok p ∧ p.contains_character = some 'a' := by
  have hcc : (nlFilters (pyLower t.toList)).contains_character = some 'a' := by
    rw [nlFilters_contains_character, if_pos h]
  refine ⟨hcc, nlFilters (pyLower t.toList), ?_, hcc⟩
  rw [parse_nl_query_eq, if_neg]
  intro he
  rw [isEmptyFilter_nlFilters] at he
  rw [he.2.2.2.2] at h
  exact Bool.noConfusion h

/-- C2 witness: a query matching both the letter pattern and "first vowel"
translates to `contains_character = some a`. -/
theorem C2_first_vowel_wins_witness :
    (nlFilters (pyLower "containing the letter z and the first vowel".toList)).contains_character
        = some 'a' ∧
    ∃ p, parse_nl_query "containing the letter z and the first vowel" = Except.ok p ∧
      p.contains_character = some 'a' :=
  C2_first_vowel_wins "containing the letter z and the first vowel" (by decide)

/-- C6: a "longer than N" match makes the translator return a filter set with
`min_length = N + 1`, strictly greater than N. -/
theorem C6_longer_than (t : String) (n : Nat)
    (h : searchLongerThan (pyLower t.toList) = some n) :
    ∃ p, parse_nl_query t = Except.ok p ∧ p.min_length = some (n + 1) := by
  have hm : (nlFilters (pyLower t.toList)).min_length = some (n + 1) := by
    rw [nlFilters_min_length, h]; rfl
  refine ⟨nlFilters (pyLower t.toList), ?_, hm⟩
  rw [parse_nl_query_eq, if_neg]
  intro he
  rw [isEmptyFilter_nlFilters] at he
  rw [he.2.1] at h
  exact Option.noConfusion h

/-- C6 witness: "strings longer than 5" matches with N = 5 and translates to
`min_length = 6`. -/
theorem C6_longer_than_witness :
    searchLongerThan (pyLower "strings longer than 5".toList) = some 5 ∧
    ∃ p, parse_nl_query "strings longer than 5" = Except.ok p ∧
      p.min_length = some (5 + 1) :=
  ⟨by rfl, C6_longer_than "strings longer than 5" 5 (by rfl)⟩

/-- C8: the translator sets `word_count = 1` exactly when the lower-cased text
contains "single word" or "one word"; in particular "single word strings"
translates to the filter set with only `word_count = 1`. -/
theorem C8_single_word (t : String) :
    (singleOneWord (pyLower t.toList) = true →
      ∃ p, parse_nl_query t = Except.ok p ∧ p.word_count = some 1) ∧
    (singleOneWord (pyLower t.toList) = false →
      ∀ p, parse_nl_query t = Except.ok p → p.word_count = none) ∧
    parse_nl_query "single word strings" =
      Except.ok { emptyFilter with word_count := some 1 } := by
  refine ⟨?_, ?_, by rw [parse_nl_query_eq]; rfl⟩
  · intro h
    have hw : (nlFilters (pyLower t.toList)).word_count = some 1 := by
      rw [nlFilters_word_count, if_pos h]
    refine ⟨nlFilters (pyLower t.toList), ?_, hw⟩
    rw [parse_nl_query_eq, if_neg]
    intro he
    rw [isEmptyFilter_nlFilters] at he
    rw [he.1] at h
    exact Bool.noConfusion h
  · intro h p hp
    rw [parse_nl_query_eq] at hp
    by_cases he : isEmptyFilter (nlFilters (pyLower t.toList)) = true
    · rw [if_pos he] at hp
      exact Except.noConfusion hp
    · rw [if_neg he] at hp
      obtain rfl := Except.ok.inj hp
      rw [nlFilters_word_count, h]
      rfl

/-- C8 witness: "single word strings" translates with `word_count = 1`. -/
theorem C8_single_word_witness :
    ∃ p, parse_nl_query "single word strings" = Except.ok p ∧ p.word_count = some 1 :=
  (C8_single_word "single word strings").1 (by rfl)

/-- C3: a filter with both bounds present and `min_length > max_length` is
rejected at construction: the structured path of `list_strings` fails with the
conflict error before any row is evaluated (in particular for
`min_length = 10`, `max_length = 5`), and the translator never outputs an
accepted filter set violating the invariant. -/
theorem C3_conflict_on_construction :
    (∀ f rows mn mx, f.min_length = some mn → f.max_length = some mx → mx < mn →
        list_strings f rows = Except.error SvcError.conflictError) ∧
    (∀ rows, list_strings { emptyFilter with min_length := some 10, max_length := some 5 } rows
        = Except.error SvcError.conflictError) ∧
    (∀ t p mn mx, parse_nl_query t = Except.ok p → p.min_length = some mn →
        p.max_length = some mx → mn ≤ mx) := by
  have key : ∀ f rows mn mx, f.min_length = some mn → f.max_length = some mx → mx < mn →
      list_strings f rows = Except.error SvcError.conflictError := by
    intro f rows mn mx hmn hmx hlt
    have hc : conflictCheck f = true := by
      unfold conflictCheck
      rw [hmn, hmx]
      simp [hlt]
    unfold list_strings
    rw [hc]
    rfl
  refine ⟨key, fun rows => key _ rows 10 5 rfl rfl (by omega), ?_⟩
  intro t p mn mx hp hmn hmx
  rw [parse_nl_query_eq] at hp
  by_cases he : isEmptyFilter (nlFilters (pyLower t.toList)) = true
  · rw [if_pos he] at hp
    exact Except.noConfusion hp
  · rw [if_neg he] at hp
    obtain rfl := Except.ok.inj hp
    rw [nlFilters_max_length] at hmx
    exact Option.noConfusion hmx

/-- C3 witness: the filter with `min_length = 10` and `max_length = 5` is
rejected with the conflict error on an empty store. -/
theorem C3_conflict_on_construction_witness :
    list_strings { emptyFilter with min_length := some 10, max_length := some 5 } []
      = Except.error SvcError.conflictError :=
  C3_conflict_on_construction.1 _ [] 10 5 rfl rfl (by omega)

/-- C4: `is_palindrome` is the case-insensitive mirror comparison of the raw
string, with no whitespace or punctuation stripping; "A" is a palindrome and
"race a car" is not. -/
theorem C4_palindrome (s : String) :
    ((compute_properties s).is_palindrome = true ↔
      pyLower s.toList = (pyLower s.toList).reverse) ∧
    (compute_properties "A").is_palindrome = true ∧
    (compute_properties "race a car").is_palindrome = false := by
  refine ⟨?_, by rfl, by rfl⟩
  simp [compute_properties]

theorem splitWsAux_length (l : List Char) :
    ∀ acc, (splitWsAux l acc).length =
      countRuns l (!acc.isEmpty) + (if acc.isEmpty then 0 else 1) := by
  induction l with
  | nil =>
      intro acc
      by_cases h : acc.isEmpty
      · simp [splitWsAux, countRuns, h]
      · simp [splitWsAux, countRuns, h]
  | cons c rest ih =>
      intro acc
      by_cases hs : pyIsSpace c
      · by_cases h : acc.isEmpty
        · simp [splitWsAux, countRuns, hs, h, ih]
        · simp [splitWsAux, countRuns, hs, h, ih]
      · by_cases h : acc.isEmpty
        · simp [splitWsAux, countRuns, hs, h, ih (c :: acc)]
          omega
        · simp [splitWsAux, countRuns, hs, h, ih (c :: acc)]

theorem pySplit_length (l : List Char) : (pySplit l).length = countRuns l false := by
  simpa [pySplit] using splitWsAux_length l []

/-- C5: `word_count` is 0 when the stripped string is empty and otherwise the
number of maximal non-whitespace runs of the string. -/
theorem C5_word_count (s : String) :
    (pyStrip s.toList = [] → (compute_properties s).word_count = 0) ∧
    (pyStrip s.toList ≠ [] → (compute_properties s).word_count = countRuns s.toList false) := by
  constructor
  · intro h
    have h2 : pyStrip s.data = [] := h
    simp [compute_properties, h2]
  · intro h
    have h2 : ¬pyStrip s.data = [] := h
    simp [compute_properties, h2, pySplit_length]

/-- C5 witness: an all-whitespace string has `word_count = 0`, and "a b" has
as many words as non-whitespace runs. -/
theorem C5_word_count_witness :
    (compute_properties " ").word_count = 0 ∧
    (compute_properties "a b").word_count = countRuns "a b".toList false :=
  ⟨(C5_word_count " ").1 (by rfl), (C5_word_count "a b").2 (by decide)⟩

/-- C9: `unique_characters` is the cardinality of the set of characters of the
string, case-sensitively; "Aa" has 2 unique characters. -/
theorem C9_unique_characters (s : String) :
    (compute_properties s).unique_characters = s.toList.toFinset.card ∧
    (compute_properties "Aa").unique_characters = 2 := by
  refine ⟨?_, by rfl⟩
  simp [compute_properties, List.card_toFinset]

/-- C1: the per-row check of `list_strings` accepts a record exactly when
every present filter field is satisfied: palindrome flag equal, length within
the present bounds, word count equal, and a strictly positive frequency for
the required character (an absent key counts as 0); the empty filter accepts
every record. -/
theorem C1_filter_evaluator (props : PropRecord) (f : FilterSet) :
    (rowMatches props f = true ↔
      ((∀ b, f.is_palindrome = some b → props.is_palindrome = b) ∧
       (∀ n, f.min_length = some n → n ≤ props.length) ∧
       (∀ n, f.max_length = some n → props.length ≤ n) ∧
       (∀ n, f.word_count = some n → props.word_count = n) ∧
       (∀ c, f.contains_character = some c → 0 < props.character_frequency c))) ∧
    rowMatches props emptyFilter = true := by
  obtain ⟨ip, mn, mx, wc, cc⟩ := f
  refine ⟨?_, by rfl⟩
  simp only [rowMatches]
  cases ip <;> cases mn <;> cases mx <;> cases wc <;> cases cc <;>
    simp [Nat.not_lt, Nat.pos_iff_ne_zero, and_assoc] <;> tauto

/-- C1 witness: the empty filter accepts the record of "level". -/
theorem C1_filter_evaluator_witness :
    rowMatches (compute_properties "level") emptyFilter = true :=
  (C1_filter_evaluator (compute_properties "level") emptyFilter).2

/-- C4 witness: "A" is a palindrome. -/
theorem C4_palindrome_witness : (compute_properties "A").is_palindrome = true :=
  (C4_palindrome "A").2.1

/-- C7 witness: "xyz123" matches no rule and fails with the parse error. -/
theorem C7_parse_error_iff_no_rule_witness :
    parse_nl_query "xyz123" = Except.error SvcError.parseError :=
  (C7_parse_error_iff_no_rule "xyz123").2.2

/-- C9 witness: "Aa" has two unique characters. -/
theorem C9_unique_characters_witness :
    (compute_properties "Aa").unique_characters = 2 :=
  (C9_unique_characters "Aa").2

/-- C10 witness: "palindromes" does not hit the conflict error. -/
theorem C10_translator_never_conflicts_witness :
    parse_nl_query "palindromes" ≠ Except.error SvcError.conflictError :=
  (C10_translator_never_conflicts "palindromes").1

end StringAnalyzer
